import Mathlib

/-!
Verification of the natural-db agent execution core.

Shallow Lean 4 embedding of the parts of the source that the verified
properties concern:

* `handleLLMDbOperation` / `executeRestrictedSQL`
  (supabase/functions/natural-db/db-utils.ts) — the privilege sandbox;
* `updateSystemPrompt` (supabase/functions/natural-db index) — prompt
  versioning store;
* `schedule_prompt` / `unschedule_prompt`
  (supabase/functions/natural-db/tools.ts) — the scheduler bridge;
* `loadRecentMessages` / `loadRecentAndRelevantMessages`
  (supabase/functions/natural-db/db-utils.ts) — the memory assembler;
* the terminal persistence/dispatch section of the natural-db `Deno.serve`
  handler.

External effects (postgres queries, supabase-js calls, the OpenAI client,
`fetch`) are modelled by explicit success/failure oracles plus pure state
passing; every fallible call site of the source gets its own oracle, so each
exit path of the source is a path of the model.
-/

namespace NaturalDb

/-- Role active on a pooled connection. `default` is the privileged default
role of the pool user; `memoriesRole` is the low-privilege `memories_role`
that `handleLLMDbOperation` switches to. -/
inductive DbRole where
  | default
  | memoriesRole
deriving DecidableEq, Repr

/-- Observable events on the pooled connection, in the order
`handleLLMDbOperation` issues them. -/
inductive ConnEvent where
  | connect
  | setRole
  | setSearchPath
  | setStatementTimeout
  | setMaxParallelWorkers
  | runSqlLogic
  | resetRoleAttempt
  | releaseAttempt
deriving DecidableEq, Repr

/-- Failure oracle for the calls inside `handleLLMDbOperation`:
`true` means the corresponding call succeeds, `false` that it throws
(for `resetRoleOk`/`releaseOk`: that the best-effort call fails). -/
structure LLMOpEnv where
  connectOk : Bool
  setRoleOk : Bool
  setPathOk : Bool
  setTimeoutOk : Bool
  setParallelOk : Bool
  sqlLogicOk : Bool
  resetRoleOk : Bool
  releaseOk : Bool
deriving DecidableEq, Repr

/-- Result of one run of `handleLLMDbOperation`: whether the structured-error
branch was taken, the ordered event trace on the connection, whether a
connection was checked out, the role active at the moment release was
attempted, and whether release was attempted. -/
structure LLMOpRun where
  isError : Bool
  events : List ConnEvent
  connAcquired : Bool
  roleAtRelease : Option DbRole
  releaseAttempted : Bool
deriving DecidableEq, Repr

/-- The `finally` block of `handleLLMDbOperation` (db-utils.ts lines 103-115):
with a connection checked out, it issues a best-effort `RESET ROLE;` (a failure
is swallowed) and then a best-effort `connection.release()` (a failure is
swallowed). `role` is the role that was active when the guarded section
exited; `events` the trace accumulated so far. -/
def llmOpFinally (env : LLMOpEnv) (isError : Bool) (events : List ConnEvent)
    (role : DbRole) : LLMOpRun :=
  { isError := isError
    events := events ++ [ConnEvent.resetRoleAttempt, ConnEvent.releaseAttempt]
    connAcquired := true
    roleAtRelease := some (if env.resetRoleOk then DbRole.default else role)
    releaseAttempted := true }

/-- Shallow embedding of `handleLLMDbOperation`
(supabase/functions/natural-db/db-utils.ts lines 72-116). The try block checks
out a connection, issues `SET ROLE "memories_role"`, `SET search_path`, the two
`SET LOCAL` resource guards, and then runs the caller-supplied SQL logic; the
first throwing call jumps to the catch block, which returns a structured
error. The `finally` block (`llmOpFinally`) runs on every one of those paths;
when `dbPool.connect()` itself throws, `connection` is still undefined and the
`finally` block performs neither the reset nor the release. -/
def handleLLMDbOperation (env : LLMOpEnv) : LLMOpRun :=
  if !env.connectOk then
    { isError := true, events := [], connAcquired := false,
      roleAtRelease := none, releaseAttempted := false }
  else
    let ev1 := [ConnEvent.connect, ConnEvent.setRole]
    if !env.setRoleOk then llmOpFinally env true ev1 DbRole.default
    else
      let ev2 := ev1 ++ [ConnEvent.setSearchPath]
      if !env.setPathOk then llmOpFinally env true ev2 DbRole.memoriesRole
      else
        let ev3 := ev2 ++ [ConnEvent.setStatementTimeout]
        if !env.setTimeoutOk then llmOpFinally env true ev3 DbRole.memoriesRole
        else
          let ev4 := ev3 ++ [ConnEvent.setMaxParallelWorkers]
          if !env.setParallelOk then llmOpFinally env true ev4 DbRole.memoriesRole
          else
            let ev5 := ev4 ++ [ConnEvent.runSqlLogic]
            if !env.sqlLogicOk then llmOpFinally env true ev5 DbRole.memoriesRole
            else llmOpFinally env false ev5 DbRole.memoriesRole

/-- The function `executeRestrictedSQL` (db-utils.ts lines 160-168) runs its query through
`handleLLMDbOperation`; its connection lifecycle is exactly that wrapper's
(the caller-supplied SQL logic is the single `queryObject` whose outcome the
`sqlLogicOk` oracle decides). -/
def executeRestrictedSQL (env : LLMOpEnv) : LLMOpRun :=
  handleLLMDbOperation env

/-- Every path through `llmOpFinally` attempts the reset and then the
release, and a successful reset leaves the default role active. -/
theorem llmOpFinally_spec (env : LLMOpEnv) (isError : Bool)
    (events : List ConnEvent) (role : DbRole) :
    (llmOpFinally env isError events role).releaseAttempted = true ∧
    (∃ pre, (llmOpFinally env isError events role).events =
      pre ++ [ConnEvent.resetRoleAttempt, ConnEvent.releaseAttempt]) ∧
    (env.resetRoleOk = true →
      (llmOpFinally env isError events role).roleAtRelease = some DbRole.default) := by
  refine ⟨rfl, ⟨events, rfl⟩, fun h => ?_⟩
  simp [llmOpFinally, h]

-- ==================== C2: prompt versioning store ====================

/-- One row of the `system_prompts` table (migration 001, lines 222-233). -/
structure SystemPromptRow where
  chat_id : String
  prompt_content : String
  version : Nat
  created_by_role : String
  description : String
  is_active : Bool
deriving DecidableEq, Repr

/-- Oracle for the three supabase-js calls inside `updateSystemPrompt`: the
deactivation update, the version lookup, and the insert. `true` = the call
returns no error. -/
structure UpdatePromptEnv where
  deactivateOk : Bool
  versionSelectOk : Bool
  insertOk : Bool
deriving DecidableEq, Repr

/-- The deactivation update of `updateSystemPrompt` (index lines 1359-1363):
set `is_active := false` on every row of the conversation that is currently
active. -/
def deactivatePrompts (db : List SystemPromptRow) (chatId : String) :
    List SystemPromptRow :=
  db.map fun r =>
    if r.chat_id == chatId && r.is_active then { r with is_active := false } else r

/-- The version lookup of `updateSystemPrompt` (index lines 1369-1374):
`select version ... order by version desc limit 1` returns the highest version
among the conversation's rows, or no row. -/
def highestVersion (db : List SystemPromptRow) (chatId : String) : Option Nat :=
  ((db.filter fun r => r.chat_id == chatId).map fun r => r.version).max?

/-- Result of `updateSystemPrompt`: success flag, optional error string, and
the table after the call. -/
structure UpdatePromptResult where
  success : Bool
  error : Option String
  db : List SystemPromptRow
deriving DecidableEq, Repr

/-- Shallow embedding of `updateSystemPrompt` (natural-db index, lines
1357-1397). Faithful detail: the source destructures `versionError` from the
version lookup but never checks it — on a lookup failure `versionData` is null
and `nextVersion` silently falls back to 1, yet the call can still report
success. A deactivation failure returns before the insert is attempted. -/
def updateSystemPrompt (env : UpdatePromptEnv) (db : List SystemPromptRow)
    (chatId newPrompt description : String) : UpdatePromptResult :=
  if !env.deactivateOk then
    { success := false, error := some "Failed to deactivate old prompts", db := db }
  else
    let db1 := deactivatePrompts db chatId
    let versionData : Option Nat :=
      if env.versionSelectOk then highestVersion db1 chatId else none
    let nextVersion := match versionData with
      | some v => v + 1
      | none => 1
    if !env.insertOk then
      { success := false, error := some "Failed to insert new prompt", db := db1 }
    else
      { success := true, error := none,
        db := db1 ++ [{ chat_id := chatId, prompt_content := newPrompt,
                        version := nextVersion, created_by_role := "assistant",
                        description := description, is_active := true }] }

/-- Number of `system_prompts` rows of a conversation with `is_active = true`. -/
def activeCount (db : List SystemPromptRow) (chatId : String) : Nat :=
  (db.filter fun r => r.chat_id == chatId && r.is_active).length

theorem activeCount_deactivatePrompts (db : List SystemPromptRow) (c : String) :
    activeCount (deactivatePrompts db c) c = 0 := by
  induction db with
  | nil => rfl
  | cons r rest ih =>
    simp only [deactivatePrompts, List.map_cons, activeCount, List.filter_cons] at *
    by_cases h1 : r.chat_id == c
    · by_cases h2 : r.is_active
      · simp [h1, h2] at *
        exact ih
      · simp [h1, h2] at *
        exact ih
    · simp [h1] at *
      exact ih

theorem highestVersion_deactivatePrompts (db : List SystemPromptRow) (c : String) :
    highestVersion (deactivatePrompts db c) c = highestVersion db c := by
  have : ((deactivatePrompts db c).filter fun r => r.chat_id == c).map
      (fun r => r.version) = (db.filter fun r => r.chat_id == c).map fun r => r.version := by
    induction db with
    | nil => rfl
    | cons r rest ih =>
      simp only [deactivatePrompts, List.map_cons, List.filter_cons] at *
      by_cases h1 : r.chat_id == c
      · by_cases h2 : r.is_active
        · simp [h1, h2] at *
          exact ih
        · simp [h1, h2] at *
          exact ih
      · simp [h1] at *
        exact ih
  simp [highestVersion, this]

/-- C1: after `ExecuteRestricted` (`executeRestrictedSQL` via
`handleLLMDbOperation`) runs any statement — whichever step succeeds or
fails — whenever a connection was checked out, the exit path attempts
`RESET ROLE` immediately before attempting the release, the release is
attempted on every such exit path, and whenever the reset succeeds the
default role is the active role at release time. -/
theorem executeRestrictedSQL_resets_role_and_releases (env : LLMOpEnv)
    (hconn : env.connectOk = true) :
    (executeRestrictedSQL env).releaseAttempted = true ∧
    (∃ pre, (executeRestrictedSQL env).events =
      pre ++ [ConnEvent.resetRoleAttempt, ConnEvent.releaseAttempt]) ∧
    (env.resetRoleOk = true →
      (executeRestrictedSQL env).roleAtRelease = some DbRole.default) := by
  obtain ⟨c, b2, b3, b4, b5, b6, b7, b8⟩ := env
  cases c
  · exact absurd hconn (by simp)
  · simp only [executeRestrictedSQL, handleLLMDbOperation]
    cases b2 <;> cases b3 <;> cases b4 <;> cases b5 <;> cases b6 <;>
      exact llmOpFinally_spec _ _ _ _

/-- Witness for C1 at a concrete run whose statement fails
(`sqlLogicOk = false`) and whose reset succeeds. -/
theorem executeRestrictedSQL_resets_role_and_releases_witness :
    (executeRestrictedSQL ⟨true, true, true, true, true, false, true, true⟩).releaseAttempted
      = true ∧
    (∃ pre, (executeRestrictedSQL ⟨true, true, true, true, true, false, true, true⟩).events =
      pre ++ [ConnEvent.resetRoleAttempt, ConnEvent.releaseAttempt]) ∧
    (executeRestrictedSQL ⟨true, true, true, true, true, false, true, true⟩).roleAtRelease =
      some DbRole.default := by
  have h := executeRestrictedSQL_resets_role_and_releases
    ⟨true, true, true, true, true, false, true, true⟩ rfl
  exact ⟨h.1, h.2.1, h.2.2 rfl⟩

theorem activeCount_append_active (l : List SystemPromptRow) (c : String)
    (row : SystemPromptRow) (h1 : row.chat_id = c) (h2 : row.is_active = true) :
    activeCount (l ++ [row]) c = activeCount l c + 1 := by
  simp [activeCount, List.filter_append, h1, h2]

/-- C2 counterexample: with one existing row (version 1) for conversation
`"7"`, a call whose internal version lookup fails — the source ignores
`versionError` — but whose deactivation and insert succeed reports success,
yet the inserted row carries version 1, not max(existing versions)+1 = 2. -/
theorem updateSystemPrompt_version_counterexample :
    (updateSystemPrompt ⟨true, false, true⟩
      [⟨"7", "be formal", 1, "assistant", "initial", true⟩] "7" "be casual" "tone").success
      = true ∧
    ((updateSystemPrompt ⟨true, false, true⟩
      [⟨"7", "be formal", 1, "assistant", "initial", true⟩] "7" "be casual" "tone").db.map
        fun row => row.version) = [1, 1] := by
  exact ⟨rfl, rfl⟩

/-- C2 (amended): after every successful `SetActive` (`updateSystemPrompt`)
call exactly one `system_prompts` row of the conversation has
`is_active = true`; provided the internal version lookup succeeded (its error
is silently ignored by the source, falling back to version 1), the new row's
version is max(existing versions)+1, or 1 when none exist; and when the
deactivation step fails the insert is not attempted and the table is
unchanged. -/
theorem updateSystemPrompt_single_active (env : UpdatePromptEnv)
    (db : List SystemPromptRow) (chatId newPrompt description : String) :
    ((updateSystemPrompt env db chatId newPrompt description).success = true →
      activeCount (updateSystemPrompt env db chatId newPrompt description).db chatId = 1) ∧
    ((updateSystemPrompt env db chatId newPrompt description).success = true →
      env.versionSelectOk = true →
      ((updateSystemPrompt env db chatId newPrompt description).db.getLast?.map
        fun row => row.version) =
        some (match highestVersion db chatId with
              | some v => v + 1
              | none => 1)) ∧
    (env.deactivateOk = false →
      (updateSystemPrompt env db chatId newPrompt description).db = db ∧
      (updateSystemPrompt env db chatId newPrompt description).success = false) := by
  obtain ⟨d, v, i⟩ := env
  cases d
  · refine ⟨fun h => absurd h (by simp [updateSystemPrompt]), ?_, fun _ => ?_⟩
    · intro h
      exact absurd h (by simp [updateSystemPrompt])
    · exact ⟨rfl, rfl⟩
  · cases i
    · refine ⟨fun h => absurd h (by simp [updateSystemPrompt]), ?_, fun h => by simp at h⟩
      intro h
      exact absurd h (by simp [updateSystemPrompt])
    · refine ⟨fun _ => ?_, fun _ hv => ?_, fun h => by simp at h⟩
      · have := activeCount_append_active (deactivatePrompts db chatId) chatId
          { chat_id := chatId, prompt_content := newPrompt,
            version :=
              match (if v = true then highestVersion (deactivatePrompts db chatId) chatId
                     else none) with
              | some w => w + 1
              | none => 1,
            created_by_role := "assistant", description := description,
            is_active := true } rfl rfl
        simpa [updateSystemPrompt, activeCount_deactivatePrompts] using this
      · subst hv
        simp [updateSystemPrompt, highestVersion_deactivatePrompts]

/-- Witness for C2's amended theorem: the all-successful call on a table with
one version-1 row leaves exactly one active row and inserts version 2. -/
theorem updateSystemPrompt_single_active_witness :
    activeCount (updateSystemPrompt ⟨true, true, true⟩
      [⟨"7", "be formal", 1, "assistant", "initial", true⟩] "7" "be casual" "tone").db "7"
      = 1 ∧
    ((updateSystemPrompt ⟨true, true, true⟩
      [⟨"7", "be formal", 1, "assistant", "initial", true⟩] "7" "be casual" "tone").db.getLast?.map
        fun row => row.version) = some 2 := by
  have h := updateSystemPrompt_single_active ⟨true, true, true⟩
    [⟨"7", "be formal", 1, "assistant", "initial", true⟩] "7" "be casual" "tone"
  exact ⟨h.1 rfl, h.2.1 rfl rfl⟩

-- ==================== Scheduler bridge: names and validation ====================

/-- Character class `[a-zA-Z0-9_]` of the source regexes (tools.ts
`JOB_NAME_REGEX` and the sanitizing `replace` calls). -/
def isJobChar (c : Char) : Bool :=
  (decide (Char.ofNat 97 ≤ c ∧ c ≤ Char.ofNat 122)) ||
  (decide (Char.ofNat 65 ≤ c ∧ c ≤ Char.ofNat 90)) ||
  (decide (Char.ofNat 48 ≤ c ∧ c ≤ Char.ofNat 57)) ||
  c == Char.ofNat 95

/-- The regex `JOB_NAME_REGEX = /^[a-zA-Z0-9_]+$/` via `isValidJobName` (tools.ts lines
15-18): one or more identifier-safe characters. -/
def isValidJobName (name : String) : Bool :=
  !name.data.isEmpty && name.data.all isJobChar

/-- The sanitizing `replace(/[^a-zA-Z0-9_]/g, "_")` of `schedule_prompt`
(tools.ts lines 125 and 129): every character outside the identifier-safe set
becomes an underscore. -/
def sanitizeIdentifierChars (s : String) : String :=
  String.mk (s.data.map fun c => if isJobChar c then c else Char.ofNat 95)

/-- JavaScript `substring(0, n)`: the first `n` characters. -/
def jsSubstring (s : String) (n : Nat) : String :=
  String.mk (s.data.take n)

/-- Decimal digit character for `d < 10`. -/
def digitChar (d : Nat) : Char := Char.ofNat (48 + d)

/-- Fuel-driven accumulator loop behind `natDecimal`; `fuel ≥ 1` more than
the digit count makes it total, and keeping it structural keeps it
kernel-evaluable. -/
def natDecimalAux : Nat → Nat → List Char → List Char
  | 0, _, acc => acc
  | fuel + 1, n, acc =>
    if n < 10 then digitChar n :: acc
    else natDecimalAux fuel (n / 10) (digitChar (n % 10) :: acc)

/-- Decimal rendering of a natural number, as JavaScript renders a
non-negative integer via `toString` and template interpolation (used for the
`Date.now().toString()` fallback suffix and the cron field rendering). -/
def natDecimal (n : Nat) : List Char :=
  natDecimalAux (n + 1) n []

/-- String form of `natDecimal`. -/
def natDecimalStr (n : Nat) : String := String.mk (natDecimal n)

/-- The single-quote character, written via its code point so that the SQL
template strings below stay readable in source form. -/
def sqc : Char := Char.ofNat 39

/-- The single quote as a one-character string. -/
def sq : String := String.mk [sqc]

/-- The `descriptiveSuffix` computation (tools.ts lines 124-126): a non-empty (truthy) hint is
sanitized and truncated to 18 characters; an empty hint falls back to
`Date.now().toString()`, where `now` is the epoch-millisecond clock reading. -/
def descriptiveSuffix (job_name : String) (now : Nat) : String :=
  if job_name.data.isEmpty then natDecimalStr now
  else jsSubstring (sanitizeIdentifierChars job_name) 18

/-- The `sanitizedId` computation (tools.ts line 129). -/
def sanitizedId (id : String) : String := sanitizeIdentifierChars id

/-- The `finalJobName` computation (tools.ts lines 131-133). -/
def finalJobName (isOneOff : Bool) (id job_name : String) (now : Nat) : String :=
  (if isOneOff then "one_off_" else "cron_") ++
    sanitizedId id ++ "_" ++ descriptiveSuffix job_name now

-- ==================== Scheduler bridge: timestamp classification ====================

/-- Parsed UTC instant with the fields the JavaScript `getUTC*` accessors
expose; `month0` is zero-based like `getUTCMonth()`. -/
structure JsDate where
  year : Int
  month0 : Nat
  day : Nat
  hour : Nat
  minute : Nat
deriving DecidableEq, Repr

/-- Days since 1970-01-01 of a Gregorian civil date (the standard
`days_from_civil` calendar algorithm), modelling the calendar arithmetic
behind `Date`. -/
def daysFromCivil (y : Int) (m d : Nat) : Int :=
  let y2 := if m ≤ 2 then y - 1 else y
  let era : Int := (if y2 ≥ 0 then y2 else y2 - 399) / 400
  let yoe : Int := y2 - era * 400
  let mp : Int := (Int.ofNat m + 9) % 12
  let doy : Int := (153 * mp + 2) / 5 + Int.ofNat d - 1
  let doe : Int := yoe * 365 + yoe / 4 - yoe / 100 + doy
  era * 146097 + doe - 719468

/-- Civil date from days since the epoch (the standard `civil_from_days`
algorithm), the inverse direction used to read `getUTC*` fields back off an
instant. -/
def civilFromDays (z0 : Int) : Int × Nat × Nat :=
  let z : Int := z0 + 719468
  let era : Int := (if z ≥ 0 then z else z - 146096) / 146097
  let doe : Int := z - era * 146097
  let yoe : Int := (doe - doe / 1460 + doe / 36524 - doe / 146096) / 365
  let y : Int := yoe + era * 400
  let doy : Int := doe - (365 * yoe + yoe / 4 - yoe / 100)
  let mp : Int := (5 * doy + 2) / 153
  let d : Int := doy - (153 * mp + 2) / 5 + 1
  let m : Int := if mp < 10 then mp + 3 else mp - 9
  (if m ≤ 2 then y + 1 else y, m.toNat, d.toNat)

/-- Decimal digit value of a character, if any. -/
def decDigit (c : Char) : Option Nat :=
  if Char.ofNat 48 ≤ c ∧ c ≤ Char.ofNat 57 then some (c.toNat - 48) else none

/-- Read exactly `k` decimal digits, accumulating their value. -/
def readFixedNat : Nat → Nat → List Char → Option (Nat × List Char)
  | 0, acc, cs => some (acc, cs)
  | k + 1, acc, cs =>
    match cs with
    | [] => none
    | c :: rest =>
      match decDigit c with
      | some d => readFixedNat k (acc * 10 + d) rest
      | none => none

/-- Expect one specific character. -/
def expectChar (c : Char) : List Char → Option (List Char)
  | [] => none
  | x :: rest => if x == c then some rest else none

/-- Drop a maximal run of decimal digits. -/
def skipWhileDigits : List Char → List Char
  | [] => []
  | c :: rest => if (decDigit c).isSome then skipWhileDigits rest else c :: rest

/-- Require at least one decimal digit, then drop the whole run. -/
def skipDigits1 : List Char → Option (List Char)
  | [] => none
  | c :: rest => if (decDigit c).isSome then some (skipWhileDigits rest) else none

/-- Leap-year rule of the Gregorian calendar. -/
def isLeapYear (y : Int) : Bool :=
  (y % 4 == 0 && y % 100 != 0) || y % 400 == 0

/-- Day count of a month. -/
def daysInMonth (y : Int) (m : Nat) : Nat :=
  if m == 2 then (if isLeapYear y then 29 else 28)
  else if m == 4 || m == 6 || m == 9 || m == 11 then 30
  else 31

/-- Parse the trailing UTC designator `Z` or numeric offset `±hh:mm`,
returning the offset in minutes; must consume the rest of the string. -/
def readOffset : List Char → Option Int
  | [c] => if c == Char.ofNat 90 then some 0 else none
  | c :: rest =>
    if c == Char.ofNat 43 || c == Char.ofNat 45 then
      match readFixedNat 2 0 rest with
      | some (hh, cs1) =>
        match expectChar (Char.ofNat 58) cs1 with
        | some cs2 =>
          match readFixedNat 2 0 cs2 with
          | some (mm, []) =>
            if hh ≤ 23 ∧ mm ≤ 59 then
              some ((if c == Char.ofNat 45 then -1 else 1) * Int.ofNat (hh * 60 + mm))
            else none
          | _ => none
        | none => none
      | none => none
    else none
  | _ => none

/-- Models `new Date(s)` on ISO-8601 date-time strings carrying an explicit
UTC designator or numeric offset — the only shape `schedule_prompt`'s one-off
classifier can accept, since that classifier additionally requires the string
to contain `T` and either contain `Z` or end in `±hh:mm`. Returns the
UTC-normalized instant; strings outside this shape yield `none`. -/
def jsDateParse (s : String) : Option JsDate := do
  let cs := s.data
  let (y, cs) ← readFixedNat 4 0 cs
  let cs ← expectChar (Char.ofNat 45) cs
  let (mon, cs) ← readFixedNat 2 0 cs
  let cs ← expectChar (Char.ofNat 45) cs
  let (d, cs) ← readFixedNat 2 0 cs
  let cs ← expectChar (Char.ofNat 84) cs
  let (hh, cs) ← readFixedNat 2 0 cs
  let cs ← expectChar (Char.ofNat 58) cs
  let (mi, cs) ← readFixedNat 2 0 cs
  let cs ←
    match cs with
    | c :: rest =>
      if c == Char.ofNat 58 then do
        let (ss, cs2) ← readFixedNat 2 0 rest
        if ss ≥ 60 then none
        else
          match cs2 with
          | c2 :: rest2 =>
            if c2 == Char.ofNat 46 then skipDigits1 rest2 else pure cs2
          | [] => pure cs2
      else pure cs
    | [] => pure cs
  let offMin ← readOffset cs
  if mon < 1 ∨ mon > 12 then none
  else if d < 1 ∨ d > daysInMonth (Int.ofNat y) mon then none
  else if hh > 23 ∨ mi > 59 then none
  else
    let total : Int := daysFromCivil (Int.ofNat y) mon d * 1440 +
      Int.ofNat (hh * 60 + mi) - offMin
    let days : Int := Int.fdiv total 1440
    let rem : Nat := (total - days * 1440).toNat
    let (yy, mm2, dd2) := civilFromDays days
    pure { year := yy, month0 := mm2 - 1, day := dd2,
           hour := rem / 60, minute := rem % 60 }

/-- Trailing-offset test `schedule_expression.match(/[+-]\d{2}:\d{2}$/)`
(tools.ts line 118). -/
def hasOffsetSuffix (s : String) : Bool :=
  match s.data.reverse with
  | a :: b :: colon :: e :: f :: sign :: _ =>
    (decDigit a).isSome && (decDigit b).isSome && colon == Char.ofNat 58 &&
    (decDigit e).isSome && (decDigit f).isSome &&
    (sign == Char.ofNat 43 || sign == Char.ofNat 45)
  | _ => false

/-- The one-off classifier of `schedule_prompt` (tools.ts lines 112-122): the
expression is treated as an absolute timestamp exactly when `new Date(expr)`
parses to a valid time and the string contains the character `T` and either
contains `Z` or ends in a numeric `±hh:mm` offset. -/
def isOneOffExpr (s : String) : Bool :=
  (jsDateParse s).isSome && s.data.contains (Char.ofNat 84) &&
    (s.data.contains (Char.ofNat 90) || hasOffsetSuffix s)

/-- The `cronForTimestamp` rendering (tools.ts lines 138-140): minute, hour, day-of-month,
1-based month, and `*` for day-of-week. -/
def cronForTimestamp (d : JsDate) : String :=
  natDecimalStr d.minute ++ " " ++ natDecimalStr d.hour ++ " " ++
  natDecimalStr d.day ++ " " ++ natDecimalStr (d.month0 + 1) ++ " *"

-- ==================== Scheduler bridge: payload and SQL builders ====================

/-- JSON string escaping as `JSON.stringify` renders a string value
(backslash and double quote escaped; control characters are outside the
modelled input space). -/
def jsonEscape (s : String) : String :=
  String.mk (s.data.foldr
    (fun c acc =>
      if c == Char.ofNat 92 || c == Char.ofNat 34 then Char.ofNat 92 :: c :: acc
      else c :: acc) [])

/-- A JSON string literal. -/
def jsonStr (s : String) : String := "\"" ++ jsonEscape s ++ "\""

/-- The `payloadForCron` object (tools.ts lines 101-109): the `JSON.stringify`-rendered
callback body a scheduled job re-submits to the service's own endpoint.
`metadataJson` stands for the rendered `\x7b...metadata,
originalUserMessage\x7d` object and `timezoneJson` for the rendered timezone
value (a JSON string or `null`); both are opaque to every property proved
here. -/
def payloadForCron (prompt id userId metadataJson timezoneJson callbackUrl : String) :
    String :=
  "\x7b" ++ jsonStr "userPrompt" ++ ":" ++ jsonStr prompt ++ "," ++
  jsonStr "id" ++ ":" ++ jsonStr id ++ "," ++
  jsonStr "userId" ++ ":" ++ jsonStr userId ++ "," ++
  jsonStr "metadata" ++ ":" ++ metadataJson ++ "," ++
  jsonStr "timezone" ++ ":" ++ timezoneJson ++ "," ++
  jsonStr "incomingMessageRole" ++ ":" ++ jsonStr "system_routine_task" ++ "," ++
  jsonStr "callbackUrl" ++ ":" ++ jsonStr callbackUrl ++ "\x7d"

/-- The `escapedPayload` computation (tools.ts line 111): every single quote doubled via
`replace(/'/g, "''")`. -/
def escapeSingleQuotes (s : String) : String :=
  String.mk (s.data.foldr (fun c acc => if c == sqc then sqc :: sqc :: acc else c :: acc) [])

/-- The `taskLogic` of a one-off job (tools.ts lines 141-143): issue the HTTP
callback, then unschedule the job by its own name. -/
def taskLogic (cronCallbackUrl escapedPayload jobName : String) : String :=
  "PERFORM net.http_post(url := " ++ sq ++ cronCallbackUrl ++ sq ++
  ", body := " ++ sq ++ escapedPayload ++ sq ++
  "::jsonb, headers := " ++ sq ++ "\x7b\"Content-Type\": \"application/json\"\x7d" ++ sq ++
  "::jsonb); " ++ "PERFORM cron.unschedule(" ++ sq ++ jobName ++ sq ++ ");"

/-- The one-off `sqlCommand` (tools.ts lines 144-145): `cron.schedule` of a
guarded `DO` block around `taskLogic`, whose exception handler raises a
notice, attempts `cron.unschedule` of the job itself inside a nested guarded
block, raises a further notice either way, and then re-raises the original
error with a bare `RAISE;`. -/
def oneOffSqlCommand (jobName cronExpr taskBody : String) : String :=
  "SELECT cron.schedule(" ++ sq ++ jobName ++ sq ++ ", " ++ sq ++ cronExpr ++ sq ++
  ", $$ DO $job$ BEGIN " ++ taskBody ++
  " EXCEPTION WHEN OTHERS THEN RAISE NOTICE " ++ sq ++ "Error job " ++ jobName ++
  ": %" ++ sq ++ ", SQLERRM; BEGIN PERFORM cron.unschedule(" ++ sq ++ jobName ++ sq ++
  "); RAISE NOTICE " ++ sq ++ "Unscheduled " ++ jobName ++ " after error." ++ sq ++
  "; EXCEPTION WHEN OTHERS THEN RAISE NOTICE " ++ sq ++
  "CRITICAL: Failed to unschedule " ++ jobName ++ " after error: %" ++ sq ++
  ", SQLERRM; END; RAISE; END; $job$; $$);"

/-- The recurring `sqlCommand` (tools.ts lines 147-148): `cron.schedule` of a
body that only issues the HTTP callback. -/
def cronSqlCommand (jobName scheduleExpr cronCallbackUrl escapedPayload : String) : String :=
  "SELECT cron.schedule(" ++ sq ++ jobName ++ sq ++ ", " ++ sq ++ scheduleExpr ++ sq ++
  ", $$ SELECT net.http_post(url := " ++ sq ++ cronCallbackUrl ++ sq ++
  ", body := " ++ sq ++ escapedPayload ++ sq ++ "::jsonb, headers := " ++ sq ++
  "\x7b\"Content-Type\": \"application/json\"\x7d" ++ sq ++ "::jsonb) $$);"

-- ==================== Scheduler bridge: the tools ====================

/-- Reply of a tool `execute` function: a success message or a structured
error object — in both cases a returned value, never a thrown exception. -/
inductive ToolReply where
  | ok (message : String)
  | err (message : String)
deriving DecidableEq, Repr

/-- A job as registered with `cron.schedule`: name, schedule expression and
stored command body. -/
structure RegisteredJob where
  name : String
  schedule : String
  command : String
deriving DecidableEq, Repr

/-- Outcome of one `schedule_prompt` call: the tool reply and the job that
`cron.schedule` registered, if the call reached it successfully. -/
structure ScheduleOutcome where
  reply : ToolReply
  registered : Option RegisteredJob
deriving DecidableEq, Repr

/-- Shallow embedding of the `schedule_prompt` tool (tools.ts lines 96-159).
`now` is `Date.now()` in epoch milliseconds (used only for the empty-hint
fallback suffix); `schedOk` is the outcome oracle of the
`executePrivilegedSQL(cron.schedule ...)` round-trip and `confirmRows`
whether that call returned a confirmation row. -/
def schedule_prompt (id userId cronCallbackUrl callbackUrl : String)
    (metadataJson timezoneJson : String)
    (schedule_expression prompt_to_schedule job_name : String)
    (now : Nat) (schedOk confirmRows : Bool) : ScheduleOutcome :=
  if id.data.isEmpty || userId.data.isEmpty || cronCallbackUrl.data.isEmpty then
    { reply := ToolReply.err "Missing required data for scheduling.", registered := none }
  else
    let payload := payloadForCron prompt_to_schedule id userId metadataJson
      timezoneJson callbackUrl
    let escapedPayload := escapeSingleQuotes payload
    let isOneOff := isOneOffExpr schedule_expression
    let name := finalJobName isOneOff id job_name now
    let job : RegisteredJob :=
      match (if isOneOff then jsDateParse schedule_expression else none) with
      | some d =>
        { name := name, schedule := cronForTimestamp d,
          command := oneOffSqlCommand name (cronForTimestamp d)
            (taskLogic cronCallbackUrl escapedPayload name) }
      | none =>
        { name := name, schedule := schedule_expression,
          command := cronSqlCommand name schedule_expression cronCallbackUrl
            escapedPayload }
    if !schedOk then
      { reply := ToolReply.err "Execution failed for execute_privileged_sql",
        registered := none }
    else if confirmRows then
      { reply := ToolReply.ok ("Job scheduled. Name: " ++ name ++ ". Type: " ++
          (if isOneOff then "One-off" else "Recurring")),
        registered := some job }
    else
      { reply := ToolReply.err "Failed to schedule job: No confirmation from cron.schedule.",
        registered := some job }

/-- Models `cron.unschedule(name)` on the pg_cron catalog (the list of
scheduled job names): removes the named job, or raises pg_cron's
"could not find valid entry" error when no such job exists. -/
def cronUnschedule (jobs : List String) (name : String) :
    Except String (List String) :=
  if jobs.contains name then Except.ok (jobs.erase name)
  else Except.error ("could not find valid entry for job " ++ name)

/-- Shallow embedding of the `unschedule_prompt` tool (tools.ts lines
162-183) run against a cron catalog; returns the tool reply and the catalog
afterwards. The `executePrivilegedSQL` wrapper (`handleSystemDbOperation`,
db-utils.ts lines 119-150) catches the database error and returns it as a
structured error string, so no exception reaches the tool. -/
def unschedule_prompt (jobs : List String) (job_name : String) :
    ToolReply × List String :=
  if job_name.data.isEmpty then
    (ToolReply.err "Job name is required for unscheduling.", jobs)
  else if !isValidJobName job_name then
    (ToolReply.err "Invalid job name format. Job names should contain only letters, numbers, and underscores.",
     jobs)
  else
    match cronUnschedule jobs job_name with
    | Except.ok jobs2 =>
      (ToolReply.ok ("Job " ++ sq ++ job_name ++ sq ++
        " has been successfully unscheduled and removed."), jobs2)
    | Except.error e =>
      (ToolReply.err ("Execution failed for execute_privileged_sql: " ++ e), jobs)

-- ==================== One-off job body semantics ====================

/-- Run-time behaviour of the guarded one-off job body generated by
`oneOffSqlCommand`, as pg_cron executes it: `callbackOk` is whether the
`net.http_post` call succeeds, `unschedOk1` whether the in-line
`cron.unschedule` succeeds, `unschedOk2` whether the handler's retry
succeeds. -/
structure JobRun where
  callbackAttempted : Bool
  selfUnscheduleAttempts : Nat
  unscheduled : Bool
  notices : List String
  raisedToCaller : Bool
deriving DecidableEq, Repr

/-- Exception-handler path of the generated one-off body (the
`EXCEPTION WHEN OTHERS` section of `oneOffSqlCommand`): raise the error
notice, attempt self-unscheduling inside a nested guarded block, raise the
corresponding notice, then re-raise the original error with the bare
`RAISE;`. `attemptsSoFar` counts unschedule attempts already made in the
protected section. -/
def oneOffHandler (jobName : String) (attemptsSoFar : Nat) (unschedOk2 : Bool) :
    JobRun :=
  { callbackAttempted := true
    selfUnscheduleAttempts := attemptsSoFar + 1
    unscheduled := unschedOk2
    notices :=
      ("Error job " ++ jobName ++ ": %") ::
      (if unschedOk2 then ["Unscheduled " ++ jobName ++ " after error."]
       else ["CRITICAL: Failed to unschedule " ++ jobName ++ " after error: %"])
    raisedToCaller := true }

/-- One firing of the generated one-off job body: the protected section
issues the callback then unschedules the job by its own name; any failure
enters `oneOffHandler`. -/
def runOneOffJobBody (jobName : String) (callbackOk unschedOk1 unschedOk2 : Bool) :
    JobRun :=
  if !callbackOk then oneOffHandler jobName 0 unschedOk2
  else if !unschedOk1 then oneOffHandler jobName 1 unschedOk2
  else
    { callbackAttempted := true
      selfUnscheduleAttempts := 1
      unscheduled := true
      notices := []
      raisedToCaller := false }

-- ==================== Scheduler bridge: supporting lemmas ====================

theorem string_data_mk (l : List Char) : (String.mk l).data = l := rfl

theorem digitChar_isJobChar (d : Nat) (h : d < 10) : isJobChar (digitChar d) = true := by
  interval_cases d <;> decide

theorem natDecimalAux_all (fuel : Nat) : ∀ (n : Nat) (acc : List Char),
    acc.all isJobChar = true → (natDecimalAux fuel n acc).all isJobChar = true := by
  induction fuel with
  | zero => intro n acc h; exact h
  | succ f ih =>
    intro n acc h
    rw [natDecimalAux]
    split
    · next hn => simp [h, digitChar_isJobChar n hn]
    · next hn =>
      exact ih _ _ (by simp [h, digitChar_isJobChar (n % 10) (Nat.mod_lt _ (by omega))])

theorem natDecimal_all_jobChars (n : Nat) : (natDecimal n).all isJobChar = true :=
  natDecimalAux_all (n + 1) n [] rfl

theorem natDecimalAux_ne_nil (fuel : Nat) : ∀ (n : Nat) (acc : List Char),
    acc ≠ [] → natDecimalAux fuel n acc ≠ [] := by
  induction fuel with
  | zero => intro n acc h; exact h
  | succ f ih =>
    intro n acc h
    rw [natDecimalAux]
    split
    · simp
    · exact ih _ _ (by simp)

theorem natDecimal_ne_nil (n : Nat) : natDecimal n ≠ [] := by
  rw [natDecimal, natDecimalAux]
  split
  · simp
  · exact natDecimalAux_ne_nil _ _ _ (by simp)

theorem sanitizeIdentifierChars_all (s : String) :
    (sanitizeIdentifierChars s).data.all isJobChar = true := by
  rw [sanitizeIdentifierChars, string_data_mk, List.all_eq_true]
  intro x hx
  obtain ⟨c, _, rfl⟩ := List.mem_map.1 hx
  by_cases h : isJobChar c = true
  · simp [h]
  · rw [if_neg h]
    decide

theorem descriptiveSuffix_all (job_name : String) (now : Nat) :
    (descriptiveSuffix job_name now).data.all isJobChar = true := by
  rw [descriptiveSuffix]
  split
  · exact natDecimal_all_jobChars now
  · rw [jsSubstring, string_data_mk, List.all_eq_true]
    intro x hx
    exact List.all_eq_true.1 (sanitizeIdentifierChars_all job_name) x
      (List.mem_of_mem_take hx)

/-- C10: for every conversation id and every job-name hint — the empty hint
included — the name `schedule_prompt` emits consists only of `[A-Za-z0-9_]`
characters and passes `unschedule_prompt`'s `isValidJobName` validation, so a
schedule → unschedule round trip is never rejected for name format: when the
emitted name is in the cron catalog, unscheduling it succeeds. -/
theorem finalJobName_valid_roundtrip (isOneOff : Bool) (id job_name : String)
    (now : Nat) (jobs : List String)
    (hmem : jobs.contains (finalJobName isOneOff id job_name now) = true) :
    isValidJobName (finalJobName isOneOff id job_name now) = true ∧
    (unschedule_prompt jobs (finalJobName isOneOff id job_name now)).1 =
      ToolReply.ok ("Job " ++ sq ++ finalJobName isOneOff id job_name now ++ sq ++
        " has been successfully unscheduled and removed.") ∧
    (unschedule_prompt jobs (finalJobName isOneOff id job_name now)).2 =
      jobs.erase (finalJobName isOneOff id job_name now) := by
  have hdata : (finalJobName isOneOff id job_name now).data =
      (if isOneOff then "one_off_" else "cron_").data ++
      ((sanitizedId id).data ++ (("_").data ++ (descriptiveSuffix job_name now).data)) := by
    simp [finalJobName, String.data_append]
  have hall : (finalJobName isOneOff id job_name now).data.all isJobChar = true := by
    rw [hdata]
    simp only [List.all_append, Bool.and_eq_true]
    refine ⟨?_, ?_, ?_, descriptiveSuffix_all job_name now⟩
    · cases isOneOff <;> decide
    · exact sanitizeIdentifierChars_all id
    · decide
  have hne : (finalJobName isOneOff id job_name now).data.isEmpty = false := by
    rw [hdata]
    cases isOneOff <;> simp
  have hvalid : isValidJobName (finalJobName isOneOff id job_name now) = true := by
    simp [isValidJobName, hne, hall]
  have hmem2 : finalJobName isOneOff id job_name now ∈ jobs := by
    simpa using hmem
  refine ⟨hvalid, ?_, ?_⟩ <;>
    simp [unschedule_prompt, hne, hvalid, cronUnschedule, hmem2]

/-- Concrete one-job cron catalog for the round-trip witness below: exactly
the name `schedule_prompt` emits for conversation `"42"`, an empty hint and
clock reading 1700000000123. -/
def jobs0 : List String := ["cron_42_1700000000123"]

/-- Witness for C10: the round trip at conversation id `"42"` with the empty
hint, whose suffix falls back to the clock reading. -/
theorem finalJobName_valid_roundtrip_witness :
    jobs0.contains (finalJobName false "42" "" 1700000000123) = true ∧
    isValidJobName (finalJobName false "42" "" 1700000000123) = true ∧
    (unschedule_prompt jobs0 (finalJobName false "42" "" 1700000000123)).1 =
      ToolReply.ok ("Job " ++ sq ++ finalJobName false "42" "" 1700000000123 ++ sq ++
        " has been successfully unscheduled and removed.") := by
  have h := finalJobName_valid_roundtrip false "42" "" 1700000000123 jobs0 (by decide)
  exact ⟨by decide, h.1, h.2.1⟩

/-- C3 counterexample: `schedule_prompt` does not reject a hint containing
characters outside the identifier-safe set — hint `"bad-hint!"` is accepted,
the request succeeds, and a job is created under the sanitized name
`cron_42_bad_hint_`. -/
theorem schedule_prompt_invalid_hint_not_rejected :
    (schedule_prompt "42" "u1" "https://svc/natural-db" "https://svc/out"
      "\x7b\x7d" "null" "0 9 * * 1" "do it" "bad-hint!" 0 true true).reply =
      ToolReply.ok "Job scheduled. Name: cron_42_bad_hint_. Type: Recurring" ∧
    ((schedule_prompt "42" "u1" "https://svc/natural-db" "https://svc/out"
      "\x7b\x7d" "null" "0 9 * * 1" "do it" "bad-hint!" 0 true true).registered.map
        fun j => j.name) = some "cron_42_bad_hint_" := by
  exact ⟨rfl, rfl⟩

/-- C3 (amended): `schedule_prompt` never rejects a `jobNameHint`: instead of
validating it, every character outside the identifier-safe set is replaced by
an underscore and the result truncated to 18 characters; with the required
context present and the scheduler round-trip confirming, the tool returns
success under the sanitized name, whose suffix consists only of
identifier-safe characters. -/
theorem schedule_prompt_sanitizes_hint
    (id userId curl cbu meta tzj expr prompt hint : String) (now : Nat)
    (hid : id.data.isEmpty = false) (huser : userId.data.isEmpty = false)
    (hcurl : curl.data.isEmpty = false) :
    (schedule_prompt id userId curl cbu meta tzj expr prompt hint now true true).reply =
      ToolReply.ok ("Job scheduled. Name: " ++ finalJobName (isOneOffExpr expr) id hint now ++
        ". Type: " ++ (if isOneOffExpr expr then "One-off" else "Recurring")) ∧
    (descriptiveSuffix hint now).data.all isJobChar = true := by
  refine ⟨?_, descriptiveSuffix_all hint now⟩
  simp [schedule_prompt, hid, huser, hcurl]

/-- Witness for C3's amended theorem: the hint `"weekly review!"` is
sanitized, not rejected. -/
theorem schedule_prompt_sanitizes_hint_witness :
    (schedule_prompt "42" "u1" "https://svc/natural-db" "https://svc/out"
      "\x7b\x7d" "null" "0 9 * * 1" "p" "weekly review!" 0 true true).reply =
      ToolReply.ok ("Job scheduled. Name: " ++
        finalJobName (isOneOffExpr "0 9 * * 1") "42" "weekly review!" 0 ++
        ". Type: " ++ (if isOneOffExpr "0 9 * * 1" then "One-off" else "Recurring")) ∧
    (descriptiveSuffix "weekly review!" 0).data.all isJobChar = true := by
  exact schedule_prompt_sanitizes_hint "42" "u1" "https://svc/natural-db" "https://svc/out"
    "\x7b\x7d" "null" "0 9 * * 1" "p" "weekly review!" 0 rfl rfl rfl

/-- C4: classification and naming of `schedule_prompt`. An expression the
classifier accepts as an absolute timestamp yields a one-off job named
`one_off_{sanitizedId}_{suffix}` whose registered schedule is the derived
single-fire cron expression of the parsed instant; any other expression is
registered as recurring under `cron_{sanitizedId}_{suffix}` with the
expression passed through as the cron schedule. -/
theorem schedule_prompt_classification
    (id userId curl cbu meta tzj expr prompt hint : String) (now : Nat) (confirm : Bool)
    (hid : id.data.isEmpty = false) (huser : userId.data.isEmpty = false)
    (hcurl : curl.data.isEmpty = false) :
    (isOneOffExpr expr = true →
      ∃ d, jsDateParse expr = some d ∧
        ((schedule_prompt id userId curl cbu meta tzj expr prompt hint
            now true confirm).registered.map fun j => (j.name, j.schedule)) =
          some ("one_off_" ++ sanitizedId id ++ "_" ++ descriptiveSuffix hint now,
            cronForTimestamp d)) ∧
    (isOneOffExpr expr = false →
      ((schedule_prompt id userId curl cbu meta tzj expr prompt hint
          now true confirm).registered.map fun j => (j.name, j.schedule)) =
        some ("cron_" ++ sanitizedId id ++ "_" ++ descriptiveSuffix hint now, expr)) := by
  constructor
  · intro h1
    have hsome : (jsDateParse expr).isSome = true := by
      cases hjp : jsDateParse expr with
      | none => rw [isOneOffExpr, hjp] at h1; simp at h1
      | some d => rfl
    obtain ⟨d, hd⟩ := Option.isSome_iff_exists.1 hsome
    refine ⟨d, hd, ?_⟩
    cases confirm <;>
      simp [schedule_prompt, hid, huser, hcurl, h1, hd, finalJobName]
  · intro h1
    cases confirm <;>
      simp [schedule_prompt, hid, huser, hcurl, h1, finalJobName]

/-- Witness for C4: Scenario A — expression `2025-01-01T09:00:00Z` for
conversation `"42"` with hint `"reminder"` is classified one-off, named
`one_off_42_reminder`, and scheduled under the derived single-fire cron
expression `0 9 1 1 *`. -/
theorem schedule_prompt_classification_witness :
    isOneOffExpr "2025-01-01T09:00:00Z" = true ∧
    ((schedule_prompt "42" "u1" "https://svc/natural-db" "https://svc/out"
      "\x7b\x7d" "null" "2025-01-01T09:00:00Z" "remind me" "reminder"
        0 true true).registered.map fun j => (j.name, j.schedule)) =
      some ("one_off_42_reminder", "0 9 1 1 *") := by
  have h := schedule_prompt_classification "42" "u1" "https://svc/natural-db"
    "https://svc/out" "\x7b\x7d" "null" "2025-01-01T09:00:00Z" "remind me" "reminder"
    0 true rfl rfl rfl
  obtain ⟨d, hd, hreg⟩ := h.1 (by decide)
  have heq : jsDateParse "2025-01-01T09:00:00Z" =
      some { year := 2025, month0 := 0, day := 1, hour := 9, minute := 0 } := by decide
  rw [heq] at hd
  have hd2 := (Option.some.inj hd).symm
  subst hd2
  exact ⟨by decide, hreg⟩

/-- C5 counterexample: when the callback inside the generated one-off job
body fails, the exception handler — after raising its notices and
re-attempting self-unscheduling — re-raises the original error with a bare
`RAISE;`, so the error is propagated to the scheduler rather than only
surfaced on the notice channel. -/
theorem oneOffJobBody_reraises_counterexample :
    (runOneOffJobBody "one_off_42_reminder" false true true).raisedToCaller = true ∧
    (runOneOffJobBody "one_off_42_reminder" false true true).notices =
      ["Error job one_off_42_reminder: %",
       "Unscheduled one_off_42_reminder after error."] := by
  exact ⟨rfl, rfl⟩

/-- C5 (amended): the generated one-off command carries the
minute/hour/day/month cron fields of the target instant as its schedule
expression, and the body is a guarded block that issues the HTTP callback
first and then unschedules the job by its own name; on any failure the
exception handler raises the error notice, attempts self-unscheduling again
(succeeding whenever that retry succeeds), raises a further notice either way
— and then re-raises the original error (bare `RAISE;`), propagating it to
the scheduler rather than merely surfacing it on the notice channel. -/
theorem oneOffJob_guarded_behaviour (name cronExpr task : String)
    (callbackOk u1 u2 : Bool) :
    (∃ pre post, oneOffSqlCommand name cronExpr task = pre ++ (cronExpr ++ post)) ∧
    (runOneOffJobBody name callbackOk u1 u2).callbackAttempted = true ∧
    1 ≤ (runOneOffJobBody name callbackOk u1 u2).selfUnscheduleAttempts ∧
    (callbackOk = true → u1 = true →
      runOneOffJobBody name callbackOk u1 u2 =
        { callbackAttempted := true, selfUnscheduleAttempts := 1,
          unscheduled := true, notices := [], raisedToCaller := false }) ∧
    ((callbackOk = false ∨ u1 = false) →
      (runOneOffJobBody name callbackOk u1 u2).notices ≠ [] ∧
      (runOneOffJobBody name callbackOk u1 u2).raisedToCaller = true ∧
      (u2 = true → (runOneOffJobBody name callbackOk u1 u2).unscheduled = true)) := by
  refine ⟨?_, ?_, ?_, ?_, ?_⟩
  · refine ⟨"SELECT cron.schedule(" ++ sq ++ name ++ sq ++ ", " ++ sq,
      sq ++ ", $$ DO $job$ BEGIN " ++ task ++
      " EXCEPTION WHEN OTHERS THEN RAISE NOTICE " ++ sq ++ "Error job " ++ name ++
      ": %" ++ sq ++ ", SQLERRM; BEGIN PERFORM cron.unschedule(" ++ sq ++ name ++ sq ++
      "); RAISE NOTICE " ++ sq ++ "Unscheduled " ++ name ++ " after error." ++ sq ++
      "; EXCEPTION WHEN OTHERS THEN RAISE NOTICE " ++ sq ++
      "CRITICAL: Failed to unschedule " ++ name ++ " after error: %" ++ sq ++
      ", SQLERRM; END; RAISE; END; $job$; $$);", ?_⟩
    simp [oneOffSqlCommand, String.append_assoc]
  · cases callbackOk <;> cases u1 <;> rfl
  · cases callbackOk <;> cases u1 <;> simp [runOneOffJobBody, oneOffHandler]
  · intro h1 h2
    subst h1; subst h2
    rfl
  · intro h
    rcases h with h | h
    · subst h
      exact ⟨by simp [runOneOffJobBody, oneOffHandler], rfl,
        fun hu => by subst hu; rfl⟩
    · subst h
      cases callbackOk
      · exact ⟨by simp [runOneOffJobBody, oneOffHandler], rfl,
          fun hu => by subst hu; rfl⟩
      · exact ⟨by simp [runOneOffJobBody, oneOffHandler], rfl,
          fun hu => by subst hu; rfl⟩

/-- Witness for C5's amended theorem: a failing callback with a succeeding
unschedule retry ends unscheduled, noticed, and re-raised. -/
theorem oneOffJob_guarded_behaviour_witness :
    (runOneOffJobBody "one_off_42_reminder" false true true).notices ≠ [] ∧
    (runOneOffJobBody "one_off_42_reminder" false true true).raisedToCaller = true ∧
    (runOneOffJobBody "one_off_42_reminder" false true true).unscheduled = true := by
  have h := oneOffJob_guarded_behaviour "one_off_42_reminder" "0 9 1 1 *"
    (taskLogic "https://svc/natural-db" "payload" "one_off_42_reminder") false true true
  have h5 := h.2.2.2.2 (Or.inl rfl)
  exact ⟨h5.1, h5.2.1, h5.2.2 rfl⟩

/-- C6 counterexample: the second `unschedule_prompt` call on the same name
is not treated as a soft success — the pg_cron "not found" failure comes back
as a structured error result. -/
theorem unschedule_prompt_twice_counterexample :
    (unschedule_prompt ["cron_42_reminder"] "cron_42_reminder").1 =
      ToolReply.ok ("Job " ++ sq ++ "cron_42_reminder" ++ sq ++
        " has been successfully unscheduled and removed.") ∧
    (unschedule_prompt (unschedule_prompt ["cron_42_reminder"] "cron_42_reminder").2
        "cron_42_reminder").1 =
      ToolReply.err
        "Execution failed for execute_privileged_sql: could not find valid entry for job cron_42_reminder" := by
  exact ⟨rfl, rfl⟩

/-- C6 (amended): `unschedule_prompt` never lets the failure escape as an
exception: the first call on a present, validly named job removes it, and a
second call — the job now absent — returns a structured "not found" error
result (the `executePrivilegedSQL` wrapper catches the database error),
leaving the catalog unchanged; the outcome is an error result, not a soft
success. -/
theorem unschedule_prompt_idempotent_errors (jobs : List String) (name : String)
    (hvalid : isValidJobName name = true) :
    (jobs.contains name = true →
      (unschedule_prompt jobs name).1 =
        ToolReply.ok ("Job " ++ sq ++ name ++ sq ++
          " has been successfully unscheduled and removed.") ∧
      (unschedule_prompt jobs name).2 = jobs.erase name) ∧
    (jobs.contains name = false →
      (unschedule_prompt jobs name).1 =
        ToolReply.err ("Execution failed for execute_privileged_sql: " ++
          ("could not find valid entry for job " ++ name)) ∧
      (unschedule_prompt jobs name).2 = jobs) := by
  have hne : name.data.isEmpty = false := by
    cases hE : name.data.isEmpty
    · rfl
    · rw [isValidJobName, hE] at hvalid
      simp at hvalid
  constructor
  · intro hmem
    have hmem2 : name ∈ jobs := by simpa using hmem
    simp [unschedule_prompt, hne, hvalid, cronUnschedule, hmem2]
  · intro hmem
    have hmem2 : name ∉ jobs := by simpa using hmem
    simp [unschedule_prompt, hne, hvalid, cronUnschedule, hmem2]

/-- Witness for C6's amended theorem: remove then re-remove the job
`one_off_7_checkin`. -/
theorem unschedule_prompt_idempotent_errors_witness :
    (unschedule_prompt ["one_off_7_checkin"] "one_off_7_checkin").1 =
      ToolReply.ok ("Job " ++ sq ++ "one_off_7_checkin" ++ sq ++
        " has been successfully unscheduled and removed.") ∧
    (unschedule_prompt [] "one_off_7_checkin").1 =
      ToolReply.err ("Execution failed for execute_privileged_sql: " ++
        ("could not find valid entry for job " ++ "one_off_7_checkin")) := by
  have h1 := unschedule_prompt_idempotent_errors ["one_off_7_checkin"]
    "one_off_7_checkin" (by decide)
  have h2 := unschedule_prompt_idempotent_errors [] "one_off_7_checkin" (by decide)
  exact ⟨(h1.1 (by decide)).1, (h2.2 rfl).1⟩

-- ==================== Memory assembler ====================

/-- A stored `messages` row as the assembler reads it: author role, text
content, creation order, and the joined `profiles.first_name`, if any. -/
structure StoredMessage where
  role : String
  content : String
  created_at : Nat
  firstName : Option String
deriving DecidableEq, Repr

/-- A message as the assembler returns it. -/
structure ChatMessage where
  role : String
  content : String
  created_at : Nat
deriving DecidableEq, Repr

/-- Content rendering of `loadRecentMessages` (db-utils.ts lines 287-299):
a user turn is prefixed with the author first name when one is present and
non-empty (JavaScript truthiness). -/
def renderMessage (m : StoredMessage) : ChatMessage :=
  { role := m.role
    content :=
      match m.firstName with
      | some fn =>
        if m.role == "user" && !fn.data.isEmpty then fn ++ ": " ++ m.content
        else m.content
      | none => m.content
    created_at := m.created_at }

/-- Result shape of `loadRecentMessages`: `\x7b error, result \x7d`. -/
structure LoadRecentResult where
  error : Option String
  result : Option (List ChatMessage)
deriving DecidableEq, Repr

/-- Shallow embedding of `loadRecentMessages` (db-utils.ts lines 254-306).
`rows` is the conversation turns in ascending `created_at` order; the
supabase query fetches them newest-first (`order created_at desc`) with
`limit`, after which the function reverses them to oldest-first and renders
each row. A missing `chatId` returns the empty list without querying;
`queryOk` is the supabase round-trip oracle (on failure the function returns
the error with a null result, never throwing). -/
def loadRecentMessages (rows : List StoredMessage) (chatId : Option String)
    (limit : Nat) (queryOk : Bool) : LoadRecentResult :=
  match chatId with
  | none => { error := none, result := some [] }
  | some _ =>
    if !queryOk then { error := some "query failed", result := none }
    else
      { error := none,
        result := some (((rows.reverse.take limit).reverse).map renderMessage) }

/-- Whitespace class of JavaScript `String.prototype.trim` (the ASCII part;
exotic Unicode space code points are outside the modelled input space). -/
def jsWhitespace (c : Char) : Bool :=
  c == Char.ofNat 32 || c == Char.ofNat 9 || c == Char.ofNat 10 ||
  c == Char.ofNat 13 || c == Char.ofNat 12 || c == Char.ofNat 11

/-- JavaScript `trim()`: strip leading and trailing whitespace. -/
def jsTrim (s : String) : String :=
  String.mk (((s.data.dropWhile jsWhitespace).reverse.dropWhile jsWhitespace).reverse)

/-- Result of `loadRecentAndRelevantMessages`, plus the observation whether
an embedding for the prompt was requested at all. -/
structure AssemblerResult where
  chronologicalMessages : List ChatMessage
  relevantContext : List ChatMessage
  embeddingAttempted : Bool
deriving DecidableEq, Repr

/-- Shallow embedding of `loadRecentAndRelevantMessages` (db-utils.ts lines
359-420). `searchRows` models the rows the `searchSimilarMessages` vector
query would return (the distance ranking itself is external data);
`embedOk` is whether `generateEmbedding` succeeds and `searchOk` whether the
similarity query returns without error. The source skips the relevant
lookup when the trimmed prompt is empty (falsy) or the chronological list is
empty; a failing recent load degrades to entirely empty context; an
embedding or search failure degrades to an empty relevant set; surviving
relevant rows are deduplicated against the chronological set by their
`role:content` rendering. Every branch returns — the function never
re-throws to its caller. -/
def loadRecentAndRelevantMessages (rows : List StoredMessage)
    (chatId : Option String) (currentPrompt : String) (maxChatHistory : Nat)
    (recentQueryOk embedOk searchOk : Bool) (searchRows : List ChatMessage) :
    AssemblerResult :=
  let recentResult := loadRecentMessages rows chatId maxChatHistory recentQueryOk
  match recentResult.error with
  | some _ =>
    { chronologicalMessages := [], relevantContext := [], embeddingAttempted := false }
  | none =>
    let chronologicalMessages := recentResult.result.getD []
    if (jsTrim currentPrompt).data.isEmpty || chronologicalMessages.isEmpty then
      { chronologicalMessages := chronologicalMessages, relevantContext := [],
        embeddingAttempted := false }
    else if !embedOk then
      { chronologicalMessages := chronologicalMessages, relevantContext := [],
        embeddingAttempted := true }
    else if !searchOk then
      { chronologicalMessages := chronologicalMessages, relevantContext := [],
        embeddingAttempted := true }
    else
      let chronoKeys := chronologicalMessages.map fun m => m.role ++ ":" ++ m.content
      { chronologicalMessages := chronologicalMessages,
        relevantContext := searchRows.filter fun m =>
          !(chronoKeys.contains (m.role ++ ":" ++ m.content)),
        embeddingAttempted := true }

-- ==================== Agent loop: terminal persistence and dispatch ====================

/-- One persistence attempt in the terminal section of the handler: author
role, content, and whether an embedding accompanied the insert
(`saveMessage` itself swallows insert failures, so these are attempts). -/
structure SavedTurn where
  role : String
  content : String
  hasEmbedding : Bool
deriving DecidableEq, Repr

/-- Observable effects of one completed accepted invocation of the
natural-db `Deno.serve` handler. -/
structure InvocationEffects where
  saveAttempts : List SavedTurn
  dispatched : List String
  status : Nat
deriving DecidableEq, Repr

/-- Shallow embedding of the accepted-invocation flow of the natural-db
`Deno.serve` handler around the model call (index lines 1508-1536 and
1718-1748): both role branches — `system_routine_task` and every other
accepted role — compute a best-effort embedding for the directive
(`generateMessageEmbedding` returns undefined on failure) and save the
directive turn; after the model returns `finalResponse`, the trimmed text is
saved as an assistant turn and POSTed to `callbackUrl` only when it is
non-empty, and the handler replies 200 in either case. -/
def handleAcceptedDirective (incomingMessageRole userPrompt finalResponse : String)
    (callbackUrl : Option String) (directiveEmbedOk responseEmbedOk : Bool) :
    InvocationEffects :=
  let directiveSave : SavedTurn :=
    { role := incomingMessageRole, content := userPrompt,
      hasEmbedding := directiveEmbedOk }
  let trimmedFinalResponse := jsTrim finalResponse
  if !trimmedFinalResponse.data.isEmpty then
    { saveAttempts := [directiveSave,
        { role := "assistant", content := trimmedFinalResponse,
          hasEmbedding := responseEmbedOk }]
      dispatched :=
        match callbackUrl with
        | some _ => [trimmedFinalResponse]
        | none => []
      status := 200 }
  else
    { saveAttempts := [directiveSave], dispatched := [], status := 200 }

theorem reverse_take_reverse {α : Type} (l : List α) (n : Nat) :
    (l.reverse.take n).reverse = l.drop (l.length - n) := by
  rw [← List.rtake_eq_reverse_take_reverse]
  rfl

/-- Concrete 12-turn conversation history for Scenario D. -/
def rows12 : List StoredMessage :=
  (List.range 12).map fun i =>
    { role := "assistant", content := natDecimalStr i, created_at := i, firstName := none }

/-- C8: the chronological list `loadRecentMessages` returns is exactly the
`maxRecent` most recent stored turns — fetched newest-first, reversed to
oldest-first — i.e. the last `min(maxRecent, count)` rows in storage order;
Scenario D: with 12 prior turns and `maxRecent = 10` the list has exactly 10
entries, oldest-first, matching the 10 most recent rows. -/
theorem loadRecentMessages_chronological (rows : List StoredMessage)
    (cid : String) (limit : Nat) :
    (loadRecentMessages rows (some cid) limit true).result =
      some ((rows.drop (rows.length - limit)).map renderMessage) ∧
    ((loadRecentMessages rows (some cid) limit true).result.map List.length) =
      some (min limit rows.length) ∧
    (loadRecentMessages rows12 (some "7") 10 true).result =
      some ((rows12.drop 2).map renderMessage) ∧
    ((loadRecentMessages rows12 (some "7") 10 true).result.map List.length) =
      some 10 := by
  refine ⟨?_, ?_, by decide, by decide⟩
  · simp [loadRecentMessages, reverse_take_reverse]
  · simp [loadRecentMessages]

/-- C9: the assembler returns on every oracle combination (it never
re-raises): the chronological set is always whatever the recent load
produced (empty when that load failed); an embedding or similarity failure
yields an empty relevant set while keeping the chronological set; the
relevant lookup is skipped — no embedding requested — whenever the trimmed
directive is empty or the chronological set is empty (in particular for
`maxRecent = 0`); and every returned relevant turn's role/content rendering
is absent from the chronological set. -/
theorem loadRecentAndRelevantMessages_graceful (rows : List StoredMessage)
    (chatId : Option String) (prompt : String) (maxN : Nat)
    (rqOk eOk sOk : Bool) (searchRows : List ChatMessage) :
    (loadRecentAndRelevantMessages rows chatId prompt maxN rqOk eOk sOk
        searchRows).chronologicalMessages =
      (loadRecentMessages rows chatId maxN rqOk).result.getD [] ∧
    ((eOk = false ∨ sOk = false) →
      (loadRecentAndRelevantMessages rows chatId prompt maxN rqOk eOk sOk
        searchRows).relevantContext = []) ∧
    (rqOk = false →
      (loadRecentAndRelevantMessages rows chatId prompt maxN rqOk eOk sOk
        searchRows).chronologicalMessages = [] ∧
      (loadRecentAndRelevantMessages rows chatId prompt maxN rqOk eOk sOk
        searchRows).relevantContext = []) ∧
    (((jsTrim prompt).data.isEmpty = true ∨ maxN = 0) →
      (loadRecentAndRelevantMessages rows chatId prompt maxN rqOk eOk sOk
        searchRows).relevantContext = [] ∧
      (loadRecentAndRelevantMessages rows chatId prompt maxN rqOk eOk sOk
        searchRows).embeddingAttempted = false) ∧
    (∀ m ∈ (loadRecentAndRelevantMessages rows chatId prompt maxN rqOk eOk sOk
        searchRows).relevantContext,
      ((loadRecentAndRelevantMessages rows chatId prompt maxN rqOk eOk sOk
        searchRows).chronologicalMessages.map
          fun x => x.role ++ ":" ++ x.content).contains
        (m.role ++ ":" ++ m.content) = false) := by
  rcases chatId with _ | c
  · have hred : loadRecentAndRelevantMessages rows none prompt maxN rqOk eOk sOk
        searchRows =
        { chronologicalMessages := [], relevantContext := [],
          embeddingAttempted := false } := by
      simp [loadRecentAndRelevantMessages, loadRecentMessages]
    rw [hred]
    exact ⟨by simp [loadRecentMessages], fun _ => rfl, fun _ => ⟨rfl, rfl⟩,
      fun _ => ⟨rfl, rfl⟩, by intro m hm; simp at hm⟩
  · cases rqOk
    · have hred : loadRecentAndRelevantMessages rows (some c) prompt maxN false eOk sOk
          searchRows =
          { chronologicalMessages := [], relevantContext := [],
            embeddingAttempted := false } := by
        simp [loadRecentAndRelevantMessages, loadRecentMessages]
      rw [hred]
      exact ⟨by simp [loadRecentMessages], fun _ => rfl, fun _ => ⟨rfl, rfl⟩,
        fun _ => ⟨rfl, rfl⟩, by intro m hm; simp at hm⟩
    · have hout : loadRecentAndRelevantMessages rows (some c) prompt maxN true eOk sOk
          searchRows =
          (if (jsTrim prompt).data.isEmpty ||
              (((rows.reverse.take maxN).reverse).map renderMessage).isEmpty then
            { chronologicalMessages := ((rows.reverse.take maxN).reverse).map renderMessage,
              relevantContext := [], embeddingAttempted := false }
          else if !eOk then
            { chronologicalMessages := ((rows.reverse.take maxN).reverse).map renderMessage,
              relevantContext := [], embeddingAttempted := true }
          else if !sOk then
            { chronologicalMessages := ((rows.reverse.take maxN).reverse).map renderMessage,
              relevantContext := [], embeddingAttempted := true }
          else
            { chronologicalMessages := ((rows.reverse.take maxN).reverse).map renderMessage,
              relevantContext := searchRows.filter fun m =>
                !(((((rows.reverse.take maxN).reverse).map renderMessage).map
                  fun x => x.role ++ ":" ++ x.content).contains
                    (m.role ++ ":" ++ m.content)),
              embeddingAttempted := true }) := rfl
      rw [hout]
      by_cases hcond : ((jsTrim prompt).data.isEmpty ||
          (((rows.reverse.take maxN).reverse).map renderMessage).isEmpty) = true
      · rw [if_pos hcond]
        exact ⟨by simp [loadRecentMessages], fun _ => rfl, fun h => by simp at h,
          fun _ => ⟨rfl, rfl⟩, by intro m hm; simp at hm⟩
      · rw [if_neg hcond]
        have h3 : ¬((jsTrim prompt).data.isEmpty = true ∨ maxN = 0) := by
          intro h
          apply hcond
          rcases h with h | h
          · simp [h]
          · subst h; simp
        cases eOk <;> cases sOk <;>
            refine ⟨rfl, ?_, fun h => by simp at h, fun h => absurd h h3, ?_⟩
        · exact fun _ => rfl
        · intro m hm
          exact absurd hm (List.not_mem_nil m)
        · exact fun _ => rfl
        · intro m hm
          exact absurd hm (List.not_mem_nil m)
        · exact fun _ => rfl
        · intro m hm
          exact absurd hm (List.not_mem_nil m)
        · intro h
          rcases h with h | h <;> simp at h
        · intro m hm
          replace hm : m ∈ searchRows.filter (fun mm =>
              !((List.map (fun x => x.role ++ ":" ++ x.content)
                (((rows.reverse.take maxN).reverse).map renderMessage)).contains
                  (mm.role ++ ":" ++ mm.content))) := hm
          rw [List.mem_filter] at hm
          have h2 : (!((List.map (fun x => x.role ++ ":" ++ x.content)
              (((rows.reverse.take maxN).reverse).map renderMessage)).contains
                (m.role ++ ":" ++ m.content))) = true := hm.2
          show (List.map (fun x => x.role ++ ":" ++ x.content)
            (((rows.reverse.take maxN).reverse).map renderMessage)).contains
              (m.role ++ ":" ++ m.content) = false
          cases hb : (List.map (fun x => x.role ++ ":" ++ x.content)
            (((rows.reverse.take maxN).reverse).map renderMessage)).contains
              (m.role ++ ":" ++ m.content)
          · rfl
          · rw [hb] at h2
            exact absurd h2 (by decide)

/-- Concrete two-turn history for the C9 witness. -/
def rowsW : List StoredMessage :=
  [{ role := "user", content := "plan my week", created_at := 0, firstName := some "Ana" },
   { role := "assistant", content := "done", created_at := 1, firstName := none }]

/-- Witness for C9: a failing embedding keeps the chronological set and
empties the relevant set, and with `maxRecent = 0` no embedding is
requested. -/
theorem loadRecentAndRelevantMessages_graceful_witness :
    (loadRecentAndRelevantMessages rowsW (some "7") "hi" 2 true false true
      [{ role := "user", content := "x", created_at := 5 }]).relevantContext = [] ∧
    (loadRecentAndRelevantMessages rowsW (some "7") "hi" 2 true false true
      [{ role := "user", content := "x", created_at := 5 }]).chronologicalMessages =
      (loadRecentMessages rowsW (some "7") 2 true).result.getD [] ∧
    (loadRecentAndRelevantMessages rowsW (some "7") "hi" 0 true true true
      []).embeddingAttempted = false := by
  have h1 := loadRecentAndRelevantMessages_graceful rowsW (some "7") "hi" 2 true false true
    [{ role := "user", content := "x", created_at := 5 }]
  have h2 := loadRecentAndRelevantMessages_graceful rowsW (some "7") "hi" 0 true true true []
  exact ⟨h1.2.1 (Or.inl rfl), h1.1, (h2.2.2.2.1 (Or.inr rfl)).2⟩

/-- C7 counterexample: a completed invocation whose model answer is the
empty string persists no assistant turn and dispatches nothing to the user —
only the directive turn is saved, and the handler still replies 200. -/
theorem handler_empty_answer_counterexample :
    (handleAcceptedDirective "user" "hello" "" (some "https://svc/out") true
      true).saveAttempts =
      [{ role := "user", content := "hello", hasEmbedding := true }] ∧
    (handleAcceptedDirective "user" "hello" "" (some "https://svc/out") true
      true).dispatched = [] ∧
    (handleAcceptedDirective "user" "hello" "" (some "https://svc/out") true
      true).status = 200 := by
  exact ⟨rfl, rfl, rfl⟩

/-- C7 (amended): on every completed accepted invocation the directive —
regardless of role, routine directives included — is saved first with a
best-effort embedding; the assistant turn is persisted and dispatched (when
a callback is present) exactly when the trimmed final answer is non-empty;
an empty trimmed answer produces no assistant turn and no outbound message;
the handler replies 200 either way. -/
theorem handler_persistence_dispatch (role prompt resp : String)
    (cb : Option String) (de re : Bool) :
    (∃ rest, (handleAcceptedDirective role prompt resp cb de re).saveAttempts =
      { role := role, content := prompt, hasEmbedding := de } :: rest) ∧
    ((jsTrim resp).data.isEmpty = false →
      (handleAcceptedDirective role prompt resp cb de re).saveAttempts =
        [{ role := role, content := prompt, hasEmbedding := de },
         { role := "assistant", content := jsTrim resp, hasEmbedding := re }] ∧
      (handleAcceptedDirective role prompt resp cb de re).dispatched =
        (match cb with | some _ => [jsTrim resp] | none => [])) ∧
    ((jsTrim resp).data.isEmpty = true →
      (handleAcceptedDirective role prompt resp cb de re).saveAttempts =
        [{ role := role, content := prompt, hasEmbedding := de }] ∧
      (handleAcceptedDirective role prompt resp cb de re).dispatched = []) ∧
    (handleAcceptedDirective role prompt resp cb de re).status = 200 := by
  cases hE : (jsTrim resp).data.isEmpty
  · refine ⟨?_, ?_, ?_, ?_⟩
    · exact ⟨[{ role := "assistant", content := jsTrim resp, hasEmbedding := re }],
        by simp [handleAcceptedDirective, hE]⟩
    · intro _
      refine ⟨by simp [handleAcceptedDirective, hE], ?_⟩
      simp only [handleAcceptedDirective, hE, Bool.not_false, if_true]
    · intro hc
      simp at hc
    · simp [handleAcceptedDirective, hE]
  · refine ⟨?_, ?_, ?_, ?_⟩
    · exact ⟨[], by simp [handleAcceptedDirective, hE]⟩
    · intro hc
      simp at hc
    · intro _
      exact ⟨by simp [handleAcceptedDirective, hE], by simp [handleAcceptedDirective, hE]⟩
    · simp [handleAcceptedDirective, hE]

/-- Witness for C7's amended theorem: a routine directive with a non-empty
answer persists the directive plus exactly one assistant turn and dispatches
the trimmed answer. -/
theorem handler_persistence_dispatch_witness :
    (handleAcceptedDirective "system_routine_task" "check tasks" " done "
      (some "https://svc/out") true true).saveAttempts =
      [{ role := "system_routine_task", content := "check tasks", hasEmbedding := true },
       { role := "assistant", content := jsTrim " done ", hasEmbedding := true }] ∧
    (handleAcceptedDirective "system_routine_task" "check tasks" " done "
      (some "https://svc/out") true true).dispatched = [jsTrim " done "] := by
  have h := handler_persistence_dispatch "system_routine_task" "check tasks" " done "
    (some "https://svc/out") true true
  have h2 := h.2.1 (by decide)
  exact ⟨h2.1, h2.2⟩

end NaturalDb
